import Mathlib

/-
  Verification of the aegis-rs vault unlock / TOTP pipeline (src/main.rs).

  Shallow embedding conventions:
  - byte strings are `List Nat`, each element < 256;
  - machine integers are `Nat` / `Int` with explicit reductions mod 2^w;
  - Rust panics (`expect`, `unwrap`, division by zero, `Nonce::from_slice`
    length aborts) are explicit `panic` constructors of result types;
  - external crates (scrypt, AES-256-GCM, serde_json's `Database` parse,
    UTF-8 validation) are abstract function parameters: the repository only
    fixes how their inputs are assembled and how their results are used;
  - primitives the repository invokes but does not implement (libreauth's
    RFC 6238 TOTP, base32) are modelled from the spec, as marked.
-/

set_option maxRecDepth 100000

namespace Aegis

/-- Byte strings: lists of naturals, each intended < 256. -/
abbrev Bytes := List Nat

/-- Big-endian byte decomposition: `k` bytes of the value `v`. -/
def beBytes (k v : Nat) : Bytes :=
  (List.range k).map (fun i => v / 256 ^ (k - 1 - i) % 256)

/-- Value of one hex digit (both cases accepted, as in the `hex` crate). -/
def hexVal (c : Char) : Option Nat :=
  if 48 ≤ c.toNat ∧ c.toNat ≤ 57 then some (c.toNat - 48)
  else if 97 ≤ c.toNat ∧ c.toNat ≤ 102 then some (c.toNat - 87)
  else if 65 ≤ c.toNat ∧ c.toNat ≤ 70 then some (c.toNat - 55)
  else none

/-- `Vec::from_hex`: an even number of hex digits, big-endian per byte. -/
def hexDecodeL : List Char → Option Bytes
  | [] => some []
  | [_] => none
  | c1 :: c2 :: rest =>
    match hexVal c1, hexVal c2, hexDecodeL rest with
    | some h, some l, some bs => some ((16 * h + l) :: bs)
    | _, _, _ => none

/-- Hex decoding of a string, as `Vec::from_hex` in the source. -/
def hexDecode (s : String) : Option Bytes := hexDecodeL s.toList

/-- The standard base64 alphabet. -/
def b64chars : List Char :=
  "ABCDEFGHIJKLMNOPQRSTUVWXYZabcdefghijklmnopqrstuvwxyz0123456789+/".toList

/-- Base64 digit for a 6-bit value. -/
def b64encChar (n : Nat) : Char := b64chars.getD n 'A'

/-- Value of a base64 digit, `none` for characters outside the alphabet. -/
def b64decChar (c : Char) : Option Nat := b64chars.findIdx? (fun x => x == c)

/-- Unpadded standard base64 encoding (`general_purpose::STANDARD_NO_PAD`). -/
def b64encodeL : Bytes → List Char
  | [] => []
  | [a] => [b64encChar (a / 4), b64encChar (a % 4 * 16)]
  | [a, b] =>
    [b64encChar (a / 4), b64encChar (a % 4 * 16 + b / 16), b64encChar (b % 16 * 4)]
  | a :: b :: c :: rest =>
    b64encChar (a / 4) :: b64encChar (a % 4 * 16 + b / 16) ::
      b64encChar (b % 16 * 4 + c / 64) :: b64encChar (c % 64) :: b64encodeL rest

/-- Unpadded standard base64 decoding, strict: rejects characters outside the
alphabet, a remainder of one character, and nonzero trailing bits, as the
`base64` crate's `STANDARD_NO_PAD` engine does. -/
def b64decodeL : List Char → Option Bytes
  | [] => some []
  | [_] => none
  | [c1, c2] =>
    match b64decChar c1, b64decChar c2 with
    | some v1, some v2 =>
      if v2 % 16 = 0 then some [v1 * 4 + v2 / 16] else none
    | _, _ => none
  | [c1, c2, c3] =>
    match b64decChar c1, b64decChar c2, b64decChar c3 with
    | some v1, some v2, some v3 =>
      if v3 % 4 = 0 then some [v1 * 4 + v2 / 16, v2 % 16 * 16 + v3 / 4] else none
    | _, _, _ => none
  | c1 :: c2 :: c3 :: c4 :: rest =>
    match b64decChar c1, b64decChar c2, b64decChar c3, b64decChar c4, b64decodeL rest with
    | some v1, some v2, some v3, some v4, some bs =>
      some ((v1 * 4 + v2 / 16) :: (v2 % 16 * 16 + v3 / 4) :: (v3 % 4 * 64 + v4) :: bs)
    | _, _, _, _, _ => none

/-- Base64 decoding of a string. -/
def b64decode (s : String) : Option Bytes := b64decodeL s.toList

/-- Base64 encoding to a string. -/
def b64encode (bs : Bytes) : String := String.mk (b64encodeL bs)

/-- Modelled from the spec: value of an RFC 4648 base32 digit (the base32
decoding used by libreauth's `base32_key` is not part of the repository). -/
def b32val (c : Char) : Option Nat :=
  if 65 ≤ c.toNat ∧ c.toNat ≤ 90 then some (c.toNat - 65)
  else if 50 ≤ c.toNat ∧ c.toNat ≤ 55 then some (c.toNat - 24)
  else none

/-- Modelled from the spec: unpadded RFC 4648 base32 decoding of the OTP
secret; each character contributes five bits, trailing bits are dropped. -/
def b32decode (s : String) : Option Bytes := do
  let vs ← s.toList.mapM b32val
  let total := vs.length * 5
  let nbytes := total / 8
  let v := vs.foldl (fun a d => a * 32 + d) 0
  some (beBytes nbytes (v / 2 ^ (total - 8 * nbytes)))

/-- Reduction to a 32-bit word. -/
def w32 (x : Nat) : Nat := x % 4294967296

/-- 32-bit left rotation (inputs are kept < 2^32 by construction). -/
def rotl (s x : Nat) : Nat := (x * 2 ^ s + x / 2 ^ (32 - s)) % 4294967296

/-- Modelled from the spec: the SHA-1 round function (FIPS 180-4). -/
def sha1F (t b c d : Nat) : Nat :=
  if t < 20 then (b &&& c) ||| ((b ^^^ 4294967295) &&& d)
  else if t < 40 then b ^^^ c ^^^ d
  else if t < 60 then (b &&& c) ||| (b &&& d) ||| (c &&& d)
  else b ^^^ c ^^^ d

/-- Modelled from the spec: the SHA-1 round constants. -/
def sha1K (t : Nat) : Nat :=
  if t < 20 then 0x5A827999
  else if t < 40 then 0x6ED9EBA1
  else if t < 60 then 0x8F1BBCDC
  else 0xCA62C1D6

/-- Message-schedule extension: append one scheduled word per fuel step. -/
def extendW : Nat → List Nat → List Nat
  | 0, ws => ws
  | k + 1, ws =>
    let n := ws.length
    extendW k (ws ++ [rotl 1 (ws.getD (n - 3) 0 ^^^ ws.getD (n - 8) 0 ^^^
      ws.getD (n - 14) 0 ^^^ ws.getD (n - 16) 0)])

/-- SHA-1 working state: five 32-bit words. -/
abbrev ShaState := Nat × Nat × Nat × Nat × Nat

/-- The 80 SHA-1 rounds, one per scheduled word. -/
def sha1Rounds : Nat → List Nat → ShaState → ShaState
  | _, [], st => st
  | t, w :: ws, (a, b, c, d, e) =>
    sha1Rounds (t + 1) ws
      (w32 (rotl 5 a + sha1F t b c d + e + sha1K t + w), a, rotl 30 b, c, d)

/-- Big-endian 32-bit words from bytes (length a multiple of four). -/
def toWords : Bytes → List Nat
  | a :: b :: c :: d :: rest => (a * 16777216 + b * 65536 + c * 256 + d) :: toWords rest
  | _ => []

/-- Split a byte string into 64-byte blocks of 16 words (fuel-driven so that
the recursion is structural; any fuel ≥ the length is enough). -/
def chunkBlocks : Nat → Bytes → List (List Nat)
  | _, [] => []
  | 0, _ => []
  | fuel + 1, bs => toWords (bs.take 64) :: chunkBlocks fuel (bs.drop 64)

/-- One SHA-1 compression: run the rounds and add into the chaining state. -/
def sha1Block (st : ShaState) (block : List Nat) : ShaState :=
  match st, sha1Rounds 0 (extendW 64 block) st with
  | (h0, h1, h2, h3, h4), (a, b, c, d, e) =>
    (w32 (h0 + a), w32 (h1 + b), w32 (h2 + c), w32 (h3 + d), w32 (h4 + e))

/-- SHA-1 padding: 0x80, zeros to 56 mod 64, then the bit length in 8 bytes. -/
def sha1Pad (msg : Bytes) : Bytes :=
  msg ++ 128 :: (List.replicate ((119 - msg.length % 64) % 64) 0 ++ beBytes 8 (8 * msg.length))

/-- Modelled from the spec: SHA-1 (FIPS 180-4) of a byte string. -/
def sha1 (msg : Bytes) : Bytes :=
  match (chunkBlocks (sha1Pad msg).length (sha1Pad msg)).foldl sha1Block
      (0x67452301, 0xEFCDAB89, 0x98BADCFE, 0x10325476, 0xC3D2E1F0) with
  | (h0, h1, h2, h3, h4) =>
    beBytes 4 h0 ++ beBytes 4 h1 ++ beBytes 4 h2 ++ beBytes 4 h3 ++ beBytes 4 h4

/-- Modelled from the spec: HMAC-SHA1 (RFC 2104). -/
def hmacSha1 (key msg : Bytes) : Bytes :=
  let k := if 64 < key.length then sha1 key else key
  let k0 := k ++ List.replicate (64 - k.length) 0
  sha1 (k0.map (fun b => b ^^^ 92) ++ sha1 (k0.map (fun b => b ^^^ 54) ++ msg))

/-- Exactly `d` decimal digits of `n`, most significant first (zero-padded). -/
def digitsPadL : Nat → Nat → List Char
  | 0, _ => []
  | d + 1, n => digitsPadL d (n / 10) ++ [Nat.digitChar (n % 10)]

/-- Zero-padded fixed-width decimal rendering, as the OTP code formatter. -/
def digitsPad (d n : Nat) : String := String.mk (digitsPadL d n)

/-- Modelled from the spec: RFC 4226 dynamic truncation of an HMAC value —
low four bits of the last byte select an offset, four bytes are taken there,
the sign bit is masked off. -/
def dynamicTruncate (h : Bytes) : Nat :=
  let off := h.getD 19 0 % 16
  (h.getD off 0 % 128) * 16777216 + h.getD (off + 1) 0 * 65536 +
    h.getD (off + 2) 0 * 256 + h.getD (off + 3) 0

/-- Modelled from the spec: RFC 4226 HOTP — dynamic truncation of
HMAC-SHA1(key, counter as 8 bytes big-endian), reduced mod `10^digits` and
left-padded with zeros to exactly `digits` characters. -/
def hotp (key : Bytes) (counter digits : Nat) : String :=
  digitsPad digits (dynamicTruncate (hmacSha1 key (beBytes 8 counter)) % 10 ^ digits)

/-- `generate_totp` from the source: libreauth's `TOTPBuilder` with only the
base32 key set, so all defaults apply — SHA-1, period 30 (initial time 0) and
six digits; the entry's `algo`, `digits` and `period` fields are not passed.
`none` models the builder error on an undecodable secret (propagated by `?`).
The current time is the explicit `now` argument (unix seconds). -/
def generate_totp (secret : String) (now : Nat) : Option String :=
  (b32decode secret).map (fun key => hotp key (now / 30) 6)

/-- UTF-8 encoding of one scalar value (what `str::as_bytes` yields per char). -/
def utf8EncodeCharNat (c : Char) : Bytes :=
  let n := c.toNat
  if n < 128 then [n]
  else if n < 2048 then [192 + n / 64, 128 + n % 64]
  else if n < 65536 then [224 + n / 4096, 128 + n / 64 % 64, 128 + n % 64]
  else [240 + n / 262144, 128 + n / 4096 % 64, 128 + n / 64 % 64, 128 + n % 64]

/-- UTF-8 bytes of a string, as `String::as_bytes` in the source. -/
def utf8Bytes (s : String) : Bytes := s.data.flatMap utf8EncodeCharNat

/-! ## Data model (the serde-derived structs of src/main.rs) -/

/-- `EntryInfo` from the source: OTP parameters of one entry. -/
structure EntryInfo where
  secret : String
  algo : String
  digits : Int
  period : Int
deriving DecidableEq, Repr

/-- `Entry` from the source; the `type` field is the entry kind tag. -/
structure Entry where
  type : String
  uuid : String
  name : String
  issuer : String
  note : String
  favorite : Bool
  info : EntryInfo
deriving DecidableEq, Repr

/-- `Database` from the source: the decrypted entry database. -/
structure Database where
  version : Nat
  entries : List Entry
deriving DecidableEq, Repr

/-- `KeyParams` from the source: hex-encoded AEAD nonce and tag. -/
structure KeyParams where
  nonce : String
  tag : String
deriving DecidableEq, Repr

/-- `SlotType` from the source (`serde_repr` over u8 values 0, 1, 2). -/
inductive SlotType where
  | raw
  | password
  | biometric
deriving DecidableEq, Repr

/-- `Slot` from the source. The scrypt fields `n`, `r`, `p` and `salt` are
`Option`s in the Rust struct, so their absence is accepted by parsing. -/
structure Slot where
  type : SlotType
  uuid : String
  key : String
  key_params : KeyParams
  n : Option Int
  r : Option Int
  p : Option Int
  salt : Option String
  repaired : Option Bool
  is_backup : Option Bool
deriving DecidableEq, Repr

/-- `Header` from the source. -/
structure Header where
  slots : List Slot
  params : KeyParams
deriving DecidableEq, Repr

/-- `AegisBackup` from the source: the parsed vault file. -/
structure AegisBackup where
  version : Nat
  header : Header
  db : String
deriving DecidableEq, Repr

/-! ## JSON model for the serde-derived `Slot` parser

A small JSON value type and the deserializer that `#[derive(Deserialize)]`
gives the `Slot` struct: required fields must be present with the right
type; `Option` fields may be absent or `null`; unknown fields are ignored. -/

/-- JSON values (numbers restricted to integers, all the schema needs). -/
inductive Json where
  | null
  | bool (b : Bool)
  | num (n : Int)
  | str (s : String)
  | arr (xs : List Json)
  | obj (fields : List (String × Json))

/-- First binding of a key in a JSON object. -/
def jLookup (fields : List (String × Json)) (k : String) : Option Json :=
  (fields.find? (fun kv => kv.fst == k)).map Prod.snd

/-- A required string field. -/
def getStr : Option Json → Option String
  | some (.str s) => some s
  | _ => none

/-- An `Option<String>` field: absent or `null` parses to `none`. -/
def getOptStr : Option Json → Option (Option String)
  | none => some none
  | some .null => some none
  | some (.str s) => some (some s)
  | some _ => none

/-- An `Option<i32>` field: absent or `null` parses to `none`. -/
def getOptInt : Option Json → Option (Option Int)
  | none => some none
  | some .null => some none
  | some (.num n) => some (some n)
  | some _ => none

/-- An `Option<bool>` field: absent or `null` parses to `none`. -/
def getOptBool : Option Json → Option (Option Bool)
  | none => some none
  | some .null => some none
  | some (.bool b) => some (some b)
  | some _ => none

/-- The `serde_repr` deserializer for `SlotType`: the numbers 0, 1, 2. -/
def getSlotType : Option Json → Option SlotType
  | some (.num 0) => some .raw
  | some (.num 1) => some .password
  | some (.num 2) => some .biometric
  | _ => none

/-- The derived deserializer for `KeyParams`. -/
def KeyParams.fromJson : Option Json → Option KeyParams
  | some (.obj fs) => do
    let nonce ← getStr (jLookup fs "nonce")
    let tag ← getStr (jLookup fs "tag")
    some ⟨nonce, tag⟩
  | _ => none

/-- The derived deserializer for `Slot`: what serde accepts for the struct in
the source — in particular `n`, `r`, `p` and `salt` may be absent even when
the slot type is `Password`. -/
def Slot.fromJson (j : Json) : Option Slot :=
  match j with
  | .obj fs => do
    let t ← getSlotType (jLookup fs "type")
    let uuid ← getStr (jLookup fs "uuid")
    let key ← getStr (jLookup fs "key")
    let kp ← KeyParams.fromJson (jLookup fs "key_params")
    let n ← getOptInt (jLookup fs "n")
    let r ← getOptInt (jLookup fs "r")
    let p ← getOptInt (jLookup fs "p")
    let salt ← getOptStr (jLookup fs "salt")
    let repaired ← getOptBool (jLookup fs "repaired")
    let ib ← getOptBool (jLookup fs "is_backup")
    some ⟨t, uuid, key, kp, n, r, p, salt, repaired, ib⟩
  | _ => none

/-! ## Pipeline functions

The external cryptographic and parsing primitives are abstract parameters:
- `ScryptFn key salt log_n r p len`: the scrypt primitive (scrypt crate);
- `AeadFn key nonce ct`: AES-256-GCM open of ciphertext-plus-tag, `none` on
  authentication failure (aes-gcm crate);
- `Bytes → Option String`: UTF-8 validation (`String::from_utf8`);
- `String → Option Database`: serde_json parse of the `Database` schema. -/

/-- Type of the abstract scrypt primitive. -/
abbrev ScryptFn := Bytes → Bytes → Nat → Nat → Nat → Nat → Bytes

/-- Type of the abstract AES-256-GCM opening primitive. -/
abbrev AeadFn := Bytes → Bytes → Bytes → Option Bytes

/-- Result of `derive_key`: a derived key, or a Rust panic with its message. -/
inductive DeriveResult where
  | ok : Bytes → DeriveResult
  | panic : String → DeriveResult
deriving DecidableEq, Repr

/-- `i32 as u32` (two's-complement reinterpretation). -/
def u32ofInt (x : Int) : Nat := (x % 4294967296).toNat

/-- Floor base-2 logarithm, by structural fuel recursion (so that it
evaluates by kernel reduction); `log2Aux n n` is `Nat.log2 n`. -/
def log2Aux : Nat → Nat → Nat
  | 0, _ => 0
  | fuel + 1, n => if 2 ≤ n then log2Aux fuel (n / 2) + 1 else 0

/-- Floor base-2 logarithm. -/
def log2N (n : Nat) : Nat := log2Aux n n

/-- `derive_key` from the source. The salt is hex-decoded, base64-encoded
into a `SaltString` and decoded again by the scrypt hasher, so the primitive
receives the hex-decoded bytes verbatim; `SaltString::from_b64` rejects
encoded salts outside 4–64 characters (`expect("Failed to parse salt")`).
The cost is decoded as an exponent via `(n as f32).log2() as u8`, which
agrees with `log2N` whenever `n` is a power of two (the only valid scrypt
cost values; for `n ≤ 0` both give 0); `r` and `p` are cast `as u32`; the
output length is fixed at 32. `scrypt::Params::new` rejects `r == 0`,
`p == 0` and `r * p ≥ 2^30` (`expect("Failed to set scrypt params")`);
its validation of the cost exponent itself (RFC 7914 requires N > 1) is
not modelled — the theorems below restrict to exponents `1 ≤ k ≤ 30`, where
the call is valid and the f32 decode is exact. Missing `salt`/`n`/`r`/`p`
fields panic via `unwrap`, exactly as in the source. -/
def derive_key (scryptFn : ScryptFn) (password : Bytes) (slot : Slot) : DeriveResult :=
  match slot.salt with
  | none => .panic "Option::unwrap on None"
  | some saltHex =>
    match hexDecode saltHex with
    | none => .panic "Failed to decode hex"
    | some saltBytes =>
      if (b64encodeL saltBytes).length < 4 ∨ 64 < (b64encodeL saltBytes).length then
        .panic "Failed to parse salt"
      else
        match slot.n, slot.r, slot.p with
        | some n, some r, some p =>
          if u32ofInt r = 0 ∨ u32ofInt p = 0 ∨
              1073741824 ≤ u32ofInt r * u32ofInt p then
            .panic "Failed to set scrypt params"
          else
            match b64decode (b64encode saltBytes) with
            | none => .panic "Failed to parse salt"
            | some saltAgain =>
              .ok (scryptFn password saltAgain (log2N n.toNat)
                (u32ofInt r) (u32ofInt p) 32)
        | _, _, _ => .panic "Option::unwrap on None"

/-- Result of `decrypt_master_key`: `found` is `Some(master_key)`, `noSlot`
is the `None` return value, `panic` a Rust process abort. -/
inductive MKResult where
  | found : Bytes → MKResult
  | noSlot : MKResult
  | panic : String → MKResult
deriving DecidableEq, Repr

/-- The filter predicate of the slot loop: `s.r#type == SlotType::Password`. -/
def slotIsPassword (s : Slot) : Bool := s.type == SlotType.password

/-- The body of the slot loop in `decrypt_master_key`: derive the key, hex
decode nonce, wrapped key and tag, append the tag to the ciphertext and open
it; on authentication failure the source panics via
`expect("Failed to decrypt master key")`. `Aes256Gcm::new` aborts
(`GenericArray::from_slice`) unless the derived key is exactly 32 bytes, and
`Nonce::from_slice` aborts unless the nonce is 12 bytes. -/
def unlockSlot (aead : AeadFn) (scryptFn : ScryptFn) (password : String)
    (slot : Slot) : MKResult :=
  match derive_key scryptFn (utf8Bytes password) slot with
  | .panic m => .panic m
  | .ok derived =>
    match hexDecode slot.key_params.nonce with
    | none => .panic "Unexpected nonce format"
    | some key_nonce =>
      match hexDecode slot.key with
      | none => .panic "Unexpected key format"
      | some wrapped =>
        match hexDecode slot.key_params.tag with
        | none => .panic "Unexpected tag format"
        | some tagBytes =>
          if derived.length = 32 then
            if key_nonce.length = 12 then
              match aead derived key_nonce (wrapped ++ tagBytes) with
              | some master_key => .found master_key
              | none => .panic "Failed to decrypt master key"
            else .panic "Nonce length is not 12 bytes"
          else .panic "Key length is not 32 bytes"

/-- `decrypt_master_key` from the source: the `for` loop over
`slots.iter().filter(type == Password)` returns unconditionally in its first
iteration (`return Some(master_key)` or a panic), so only the first
password-type slot is ever attempted; with no password-type slot the loop
body never runs and the function returns `None`. -/
def decrypt_master_key (aead : AeadFn) (scryptFn : ScryptFn) (password : String)
    (slots : List Slot) : MKResult :=
  match slots.filter slotIsPassword with
  | [] => .noSlot
  | slot :: _ => unlockSlot aead scryptFn password slot

/-- Result of `decrypt_database`. -/
inductive DBResult where
  | ok : Database → DBResult
  | panic : String → DBResult
deriving DecidableEq, Repr

/-- `decrypt_database` from the source: hex-decode nonce and tag, base64
decode the `db` blob, append the tag to the ciphertext, open with
AES-256-GCM under the master key, decode as UTF-8, parse as JSON. Every
failure is a panic (`expect`), exactly as in the source; `Aes256Gcm::new`
aborts (`GenericArray::from_slice`) unless the master key is exactly 32
bytes, and `Nonce::from_slice` aborts unless the nonce is 12 bytes. -/
def decrypt_database (aead : AeadFn) (utf8dec : Bytes → Option String)
    (parseDb : String → Option Database) (params : KeyParams)
    (master_key : Bytes) (db : String) : DBResult :=
  match hexDecode params.nonce with
  | none => .panic "Unexpected nonce format"
  | some db_nonce =>
    match hexDecode params.tag with
    | none => .panic "Unexpected tag format"
    | some db_tag =>
      match b64decode db with
      | none => .panic "Unexpected database format"
      | some db_cipher =>
        if master_key.length = 32 then
          if db_nonce.length = 12 then
            match aead master_key db_nonce (db_cipher ++ db_tag) with
            | none => .panic "Failed to decrypt database"
            | some contents =>
              match utf8dec contents with
              | none => .panic "Unexpected UTF-8 format"
              | some str =>
                match parseDb str with
                | none => .panic "Failed to parse JSON"
                | some d => .ok d
          else .panic "Nonce length is not 12 bytes"
        else .panic "Key length is not 32 bytes"

/-- Outcome of the unlock pipeline in `main` after the vault is parsed. -/
inductive RunResult where
  | ok : Database → RunResult
  | unsupportedVaultVersion : Nat → RunResult
  | unsupportedDbVersion : Nat → RunResult
  | panic : String → RunResult
deriving DecidableEq, Repr

/-- The unlock pipeline of `main` from the parsed backup up to the decrypted
database: reject `version != 1` (println + exit before any password prompt
or decryption), unlock the master key (`expect` panics on `None`), decrypt
the database, reject database `version != 2`. -/
def runVault (aead : AeadFn) (scryptFn : ScryptFn) (utf8dec : Bytes → Option String)
    (parseDb : String → Option Database) (backup : AegisBackup)
    (password : String) : RunResult :=
  if backup.version ≠ 1 then .unsupportedVaultVersion backup.version
  else
    match decrypt_master_key aead scryptFn password backup.header.slots with
    | .noSlot => .panic "Failed to decrypt master key"
    | .panic m => .panic m
    | .found mk =>
      match decrypt_database aead utf8dec parseDb backup.header.params mk backup.db with
      | .panic m => .panic m
      | .ok d =>
        if d.version ≠ 2 then .unsupportedDbVersion d.version else .ok d

/-- `u64 → i32` truncating cast (`as_secs() as i32`). -/
def i32cast (n : Nat) : Int :=
  if n % 4294967296 < 2147483648 then ((n % 4294967296 : Nat) : Int)
  else ((n % 4294967296 : Nat) : Int) - 4294967296

/-- Two's-complement wrap of an i32 arithmetic result. -/
def wrap32 (x : Int) : Int := (x + 2147483648) % 4294967296 - 2147483648

/-- `get_time_left` from the source, with the u64 clock passed explicitly:
the function truncates it to i32 (`as_secs() as i32`) and computes
`period - (seconds % period)` with Rust's truncated remainder. `%` aborts
unconditionally when `period == 0` (remainder by zero) and in the overflow
case `seconds == i32::MIN && period == -1`; both aborts are modelled as
`none`. The i32 subtraction wraps (release profile). -/
def get_time_left (now : Nat) (period : Int) : Option Int :=
  if period = 0 ∨ (i32cast now = -2147483648 ∧ period = -1) then none
  else some (wrap32 (period - Int.tmod (i32cast now) period))

/-- Result of the selection branch at the end of `main`. -/
inductive SelectResult where
  | ok : String → Int → SelectResult
  | err : SelectResult
  | panic : String → SelectResult
  | noSelection : SelectResult
deriving DecidableEq, Repr

/-- The selection branch of `main`: with `Some(index)` the entry is fetched
(`unwrap` panics when out of range) and its code and remaining time are
printed; the entry's `type` field is never consulted. `err` models the `?`
propagation of a TOTP builder error; the remainder-by-zero panic surfaces
when the entry's period is 0. -/
def show_entry (db : Database) (index : Option Nat) (now : Nat) : SelectResult :=
  match index with
  | none => .noSelection
  | some i =>
    match db.entries.get? i with
    | none => .panic "Option::unwrap on None"
    | some e =>
      match generate_totp e.info.secret now with
      | none => .err
      | some code =>
        match get_time_left now e.info.period with
        | none => .panic "Remainder by zero"
        | some t => .ok code t

/-! ## Supporting lemmas -/

/-- Decoding a base64 digit inverts encoding on 6-bit values. -/
theorem b64decChar_encChar : ∀ n, n < 64 → b64decChar (b64encChar n) = some n := by decide

/-- A hex digit's value is below 16. -/
theorem hexVal_lt (c : Char) (v : Nat) (h : hexVal c = some v) : v < 16 := by
  unfold hexVal at h
  split at h
  · injection h with hv; omega
  · split at h
    · injection h with hv; omega
    · split at h
      · injection h with hv; omega
      · exact absurd h (by simp)

/-- Hex decoding produces bytes. -/
theorem hexDecodeL_lt : ∀ l bs, hexDecodeL l = some bs → ∀ b ∈ bs, b < 256
  | [], bs, h => by
    simp only [hexDecodeL, Option.some.injEq] at h
    intro b hb
    rw [← h] at hb
    simp at hb
  | [_], bs, h => by simp [hexDecodeL] at h
  | c1 :: c2 :: rest, bs, h => by
    intro b hb
    simp only [hexDecodeL] at h
    cases h1 : hexVal c1 with
    | none => rw [h1] at h; simp at h
    | some v1 =>
      cases h2 : hexVal c2 with
      | none => rw [h1, h2] at h; simp at h
      | some v2 =>
        cases h3 : hexDecodeL rest with
        | none => rw [h1, h2, h3] at h; simp at h
        | some tail =>
          rw [h1, h2, h3] at h
          simp only [Option.some.injEq] at h
          rw [← h] at hb
          rcases List.mem_cons.mp hb with rfl | hmem
          · have hv1 := hexVal_lt c1 v1 h1
            have hv2 := hexVal_lt c2 v2 h2
            omega
          · exact hexDecodeL_lt rest tail h3 b hmem

/-- Base64 decoding inverts base64 encoding on byte strings. -/
theorem b64_roundtripL : ∀ bs : Bytes, (∀ b ∈ bs, b < 256) →
    b64decodeL (b64encodeL bs) = some bs
  | [], _ => rfl
  | [a], h => by
    have ha : a < 256 := h a (by simp)
    simp only [b64encodeL, b64decodeL]
    rw [b64decChar_encChar (a / 4) (by omega), b64decChar_encChar (a % 4 * 16) (by omega)]
    simp only []
    rw [if_pos (by omega)]
    congr 2
    omega
  | [a, b], h => by
    have ha : a < 256 := h a (by simp)
    have hb : b < 256 := h b (by simp)
    simp only [b64encodeL, b64decodeL]
    rw [b64decChar_encChar (a / 4) (by omega),
      b64decChar_encChar (a % 4 * 16 + b / 16) (by omega),
      b64decChar_encChar (b % 16 * 4) (by omega)]
    simp only []
    rw [if_pos (by omega)]
    congr 2
    · omega
    · congr 1
      omega
  | a :: b :: c :: rest, h => by
    have ha : a < 256 := h a (by simp)
    have hb : b < 256 := h b (by simp)
    have hc : c < 256 := h c (by simp)
    have ih := b64_roundtripL rest (fun x hx => h x (by simp [hx]))
    simp only [b64encodeL, b64decodeL]
    rw [b64decChar_encChar (a / 4) (by omega),
      b64decChar_encChar (a % 4 * 16 + b / 16) (by omega),
      b64decChar_encChar (b % 16 * 4 + c / 64) (by omega),
      b64decChar_encChar (c % 64) (by omega), ih]
    simp only []
    congr 2
    · omega
    · congr 1
      · omega
      · congr 1
        omega

/-- Base64 round trip on strings. -/
theorem b64_roundtrip (bs : Bytes) (h : ∀ b ∈ bs, b < 256) :
    b64decode (b64encode bs) = some bs := by
  unfold b64decode b64encode
  show b64decodeL (String.mk (b64encodeL bs)).toList = some bs
  rw [show (String.mk (b64encodeL bs)).toList = b64encodeL bs from rfl]
  exact b64_roundtripL bs h

/-- Length of a base64 encoding: four characters per three bytes, rounded
for the final partial group. -/
theorem b64encodeL_length : ∀ bs : Bytes,
    (b64encodeL bs).length = (4 * bs.length + 2) / 3
  | [] => rfl
  | [_] => by simp [b64encodeL]
  | [_, _] => by simp [b64encodeL]
  | _ :: _ :: _ :: rest => by
    simp only [b64encodeL, List.length_cons]
    rw [b64encodeL_length rest]
    omega

/-- `wrap32` is the identity on the i32 range. -/
theorem wrap32_eq (x : Int) (h1 : -2147483648 ≤ x) (h2 : x < 2147483648) :
    wrap32 x = x := by
  unfold wrap32
  omega

/-- `log2N` recovers the exponent of a power of two (the range of cost
exponents for which `(n as f32).log2() as u8` in the source is exact). -/
theorem log2N_two_pow : ∀ k, k ≤ 30 → log2N (2 ^ k) = k := by decide

/-- Fixed-width digit rendering has the requested width. -/
theorem digitsPadL_length : ∀ d n, (digitsPadL d n).length = d := by
  intro d
  induction d with
  | zero => intro n; rfl
  | succ k ih => intro n; simp [digitsPadL, ih]

/-- `digitsPad` produces exactly `d` characters. -/
theorem digitsPad_length (d n : Nat) : (digitsPad d n).length = d := by
  show (String.mk (digitsPadL d n)).length = d
  simp [String.length, digitsPadL_length]

/-- Validation of the modelled SHA-1 against the FIPS 180 test vector for
the empty message. -/
theorem sha1_empty_vector :
    sha1 [] = [0xda, 0x39, 0xa3, 0xee, 0x5e, 0x6b, 0x4b, 0x0d, 0x32, 0x55,
      0xbf, 0xef, 0x95, 0x60, 0x18, 0x90, 0xaf, 0xd8, 0x07, 0x09] := by decide

/-- Validation of the modelled HOTP against the RFC 4226 appendix D vector:
secret "12345678901234567890", counter 0, six digits. -/
theorem hotp_rfc4226_vector :
    hotp ((String.toList "12345678901234567890").map Char.toNat) 0 6 =
      "755224" := by decide

/-- Validation of the modelled base32 decoding: the spec's test secret is
the ASCII bytes of "1234567890" (ten bytes, not the twenty-byte RFC 6238
seed). -/
theorem b32decode_test_secret :
    b32decode "GEZDGNBVGY3TQOJQ" =
      some ((String.toList "1234567890").map Char.toNat) := by decide

/-! ## Concrete instances of the abstract primitives, and fixture data -/

/-- An AEAD instance that rejects every ciphertext (models a wrong key or
tampered data: authentication always fails). -/
def aeadReject : AeadFn := fun _ _ _ => none

/-- An AEAD instance that authenticates only under the nonce `…01` and then
yields the master key `[7]`. -/
def aeadSecondOnly : AeadFn :=
  fun _ nonce _ => if nonce = beBytes 12 1 then some [7] else none

/-- An AEAD instance that accepts everything and returns the ciphertext. -/
def aeadEcho : AeadFn := fun _ _ ct => some ct

/-- A scrypt instance returning an all-zero key of the requested length. -/
def scryptZero : ScryptFn := fun _ _ _ _ _ len => List.replicate len 0

/-- A UTF-8 decoder instance accepting everything. -/
def utf8Stub : Bytes → Option String := fun _ => some ""

/-- A database parser instance accepting everything. -/
def parseDbStub : String → Option Database := fun _ => some ⟨2, []⟩

/-- A password-type slot with decodable fields (16-byte salt, N = 2, r = 8,
p = 1, within every validated range), nonce `…00`. -/
def pwSlot1 : Slot :=
  ⟨.password, "s1", "00", ⟨"000000000000000000000000", "00"⟩,
    some 2, some 8, some 1, some "00000000000000000000000000000000", none, none⟩

/-- A password-type slot with decodable fields, nonce `…01`. -/
def pwSlot2 : Slot :=
  ⟨.password, "s2", "00", ⟨"000000000000000000000001", "00"⟩,
    some 2, some 8, some 1, some "00000000000000000000000000000000", none, none⟩

/-- A backup whose only slot is not of password type. -/
def backupNoPasswordSlot : AegisBackup :=
  ⟨1, ⟨[⟨.raw, "r", "00", ⟨"000000000000000000000000", "00"⟩,
    none, none, none, none, none, none⟩],
    ⟨"000000000000000000000000", "00"⟩⟩, "AA"⟩

/-- A Password-type slot (as JSON) with the `salt`/`n`/`r`/`p` fields absent. -/
def slotJsonNoSalt : Json :=
  .obj [("type", .num 1), ("uuid", .str "u1"), ("key", .str "00"),
    ("key_params", .obj [("nonce", .str "000000000000000000000000"), ("tag", .str "00")])]

/-- The parsed form of `slotJsonNoSalt`. -/
def slotNoSalt : Slot :=
  ⟨.password, "u1", "00", ⟨"000000000000000000000000", "00"⟩,
    none, none, none, none, none, none⟩

/-- An entry of non-TOTP type (`hotp`) with a decodable secret. -/
def hotpEntry : Entry :=
  ⟨"hotp", "id1", "acct", "issuer", "", false, ⟨"GEZDGNBVGY3TQOJQ", "SHA1", 6, 30⟩⟩

/-- The same entry with type `totp`. -/
def totpEntry : Entry :=
  ⟨"totp", "id1", "acct", "issuer", "", false, ⟨"GEZDGNBVGY3TQOJQ", "SHA1", 6, 30⟩⟩

/-! ## Claim theorems -/

/-- C1 (code bug): when the only password-type slot fails AEAD
authentication, and likewise when no password-type slot exists, the unlock
operation does not return a `WrongPasswordOrNoMatchingSlot`-style error
value — it aborts the process (the `expect` panic the source's own
`TODO: Don't crash` comment flags). -/
theorem unlock_aborts_instead_of_error :
    decrypt_master_key aeadReject scryptZero "password" [pwSlot1] =
      .panic "Failed to decrypt master key" ∧
    runVault aeadReject scryptZero utf8Stub parseDbStub backupNoPasswordSlot
      "password" = .panic "Failed to decrypt master key" :=
  ⟨by decide, by decide⟩

/-- C2 counterexample: the passcode the program generates for the spec's
RFC 6238 test entry (base32 secret GEZDGNBVGY3TQOJQ, entry configured for
SHA1 / 8 digits / period 30) at time 59 is the six-character "263420", not
"94287082": the entry's digit count is not honoured. -/
theorem generate_totp_vector_fails :
    generate_totp "GEZDGNBVGY3TQOJQ" 59 = some "263420" ∧
    ("263420" : String) ≠ "94287082" :=
  ⟨by decide, by decide⟩

/-- C2 (amended): passcodes are computed with the libreauth defaults —
SHA1, period 30 and six digits — ignoring the entry's hash algorithm,
period and digit count: every generated code has exactly six characters
(the truncated HMAC value is reduced mod 10^6 and zero-padded to width 6),
and for the test secret at time 59 the program's code is "263420". -/
theorem generate_totp_fixed_defaults :
    (∀ s t code, generate_totp s t = some code → code.length = 6) ∧
    generate_totp "GEZDGNBVGY3TQOJQ" 59 = some "263420" := by
  constructor
  · intro s t code h
    unfold generate_totp at h
    cases hb : b32decode s with
    | none => rw [hb] at h; simp at h
    | some key =>
      rw [hb] at h
      simp only [Option.map_some', Option.some.injEq] at h
      rw [← h]
      unfold hotp
      exact digitsPad_length 6 _
  · decide

/-- Witness for the amended C2 theorem at the test vector. -/
theorem generate_totp_fixed_defaults_witness : ("263420" : String).length = 6 :=
  generate_totp_fixed_defaults.1 "GEZDGNBVGY3TQOJQ" 59 "263420"
    generate_totp_fixed_defaults.2

/-- C3 counterexample: with two password-type slots of which only the
second authenticates (alone it would yield master key `[7]`), the unlock
operation aborts at the first slot instead of attempting the second. -/
theorem first_slot_failure_stops_unlock :
    unlockSlot aeadSecondOnly scryptZero "pw" pwSlot2 = .found [7] ∧
    decrypt_master_key aeadSecondOnly scryptZero "pw" [pwSlot1, pwSlot2] =
      .panic "Failed to decrypt master key" :=
  ⟨by decide, by decide⟩

/-- C3 (amended): the unlock operation attempts only the first
password-type slot in list order; its outcome — the master key when the tag
verifies, a process abort when authentication fails — is the outcome of the
whole operation, and later password-type slots are never attempted. -/
theorem decrypt_master_key_first_password_slot (aead : AeadFn) (sc : ScryptFn)
    (pw : String) (slots : List Slot) (s : Slot) (rest : List Slot)
    (h : slots.filter slotIsPassword = s :: rest) :
    decrypt_master_key aead sc pw slots = unlockSlot aead sc pw s := by
  unfold decrypt_master_key
  rw [h]

/-- Witness for the amended C3 theorem on a two-slot list. -/
theorem decrypt_master_key_first_password_slot_witness :
    decrypt_master_key aeadSecondOnly scryptZero "pw" [pwSlot1, pwSlot2] =
      unlockSlot aeadSecondOnly scryptZero "pw" pwSlot1 :=
  decrypt_master_key_first_password_slot aeadSecondOnly scryptZero "pw"
    [pwSlot1, pwSlot2] pwSlot1 [pwSlot2] (by decide)

/-- C4: for a 32-byte master key, database decryption base64-decodes the
blob, appends the hex-decoded `header.params.tag`, opens exactly those
bytes with AES-256-GCM under the master key and the hex-decoded nonce,
decodes the plaintext as UTF-8 and parses it into the `Database` schema. -/
theorem decrypt_database_dataflow (aead : AeadFn)
    (utf8dec : Bytes → Option String) (parseDb : String → Option Database)
    (params : KeyParams) (mk : Bytes) (db : String)
    (nb tb cb pt : Bytes) (s : String) (d : Database)
    (hkey : mk.length = 32)
    (hn : hexDecode params.nonce = some nb) (hlen : nb.length = 12)
    (ht : hexDecode params.tag = some tb)
    (hb : b64decode db = some cb)
    (ha : aead mk nb (cb ++ tb) = some pt)
    (hu : utf8dec pt = some s)
    (hp : parseDb s = some d) :
    decrypt_database aead utf8dec parseDb params mk db = .ok d := by
  unfold decrypt_database
  simp only [hn, ht, hb, hkey, hlen, ha, hu, hp, if_true]

/-- Witness for the C4 theorem on concrete data (all-zero 32-byte key). -/
theorem decrypt_database_dataflow_witness :
    decrypt_database aeadEcho utf8Stub parseDbStub
      ⟨"000000000000000000000000", "00"⟩ (List.replicate 32 0) "AA" =
      .ok ⟨2, []⟩ :=
  decrypt_database_dataflow aeadEcho utf8Stub parseDbStub
    ⟨"000000000000000000000000", "00"⟩ (List.replicate 32 0) "AA"
    (beBytes 12 0) [0] [0] [0, 0] "" ⟨2, []⟩
    (by decide) (by decide) (by decide) (by decide) (by decide) (by decide)
    (by decide) (by decide)

/-- C5: for a salt within the `SaltString` limits (3–48 bytes) and scrypt
parameters within the `Params::new` ranges, key derivation invokes the
scrypt primitive with the cost exponent log2(N) decoded from the stored
raw cost N = 2^k, the block size r and parallelism p (cast to u32), output
length exactly 32 bytes, and the salt bytes hex-decoded from the slot
verbatim (they survive the source's base64 `SaltString` round trip). -/
theorem derive_key_scrypt_params (sc : ScryptFn) (pw : Bytes) (slot : Slot)
    (k : Nat) (rr pp : Int) (saltHex : String) (saltBytes : Bytes)
    (hsalt : slot.salt = some saltHex)
    (hhex : hexDecode saltHex = some saltBytes)
    (hsl : 3 ≤ saltBytes.length) (hsu : saltBytes.length ≤ 48)
    (hn : slot.n = some (Int.ofNat (2 ^ k))) (hk0 : 1 ≤ k) (hk : k ≤ 30)
    (hr : slot.r = some rr) (hrr0 : 0 < rr) (hrr1 : rr < 4294967296)
    (hpf : slot.p = some pp) (hpp0 : 0 < pp) (hpp1 : pp < 4294967296)
    (hprod : rr.toNat * pp.toNat < 1073741824) :
    derive_key sc pw slot = .ok (sc pw saltBytes k rr.toNat pp.toNat 32) := by
  have hrt : b64decode (b64encode saltBytes) = some saltBytes :=
    b64_roundtrip saltBytes (hexDecodeL_lt saltHex.toList saltBytes hhex)
  have hlen : (b64encodeL saltBytes).length = (4 * saltBytes.length + 2) / 3 :=
    b64encodeL_length saltBytes
  have h1 : log2N (Int.toNat (Int.ofNat (2 ^ k))) = k := log2N_two_pow k hk
  have h2 : u32ofInt rr = rr.toNat := by unfold u32ofInt; omega
  have h3 : u32ofInt pp = pp.toNat := by unfold u32ofInt; omega
  unfold derive_key
  rw [hsalt]
  simp only [hhex]
  rw [if_neg (by omega)]
  simp only [hn, hr, hpf, h2, h3]
  rw [if_neg (by omega)]
  simp only [hrt, h1]

/-- Witness for the C5 theorem on a concrete slot (N = 2, r = 8, p = 1,
16-byte salt). -/
theorem derive_key_scrypt_params_witness :
    derive_key scryptZero (utf8Bytes "test1234") pwSlot1 =
      .ok (scryptZero (utf8Bytes "test1234") (List.replicate 16 0) 1 8 1 32) :=
  derive_key_scrypt_params scryptZero (utf8Bytes "test1234") pwSlot1
    1 8 1 "00000000000000000000000000000000" (List.replicate 16 0)
    (by decide) (by decide) (by decide) (by decide) (by decide) (by decide)
    (by decide) (by decide) (by decide) (by decide) (by decide) (by decide)
    (by decide) (by decide)

/-- C6: a parsed backup whose version is not 1 stops the pipeline with the
unsupported-version outcome for every choice of the cryptographic
primitives — no key derivation or decryption can influence the result. -/
theorem runVault_unsupported_version (aead : AeadFn) (sc : ScryptFn)
    (utf8dec : Bytes → Option String) (parseDb : String → Option Database)
    (backup : AegisBackup) (pw : String) (h : backup.version ≠ 1) :
    runVault aead sc utf8dec parseDb backup pw =
      .unsupportedVaultVersion backup.version := by
  unfold runVault
  rw [if_pos h]

/-- Witness for the C6 theorem: a version-2 backup that contains a
decryptable password slot is still rejected. -/
theorem runVault_unsupported_version_witness :
    runVault aeadEcho scryptZero utf8Stub parseDbStub
      ⟨2, ⟨[pwSlot1], ⟨"000000000000000000000000", "00"⟩⟩, "AA"⟩ "pw" =
      .unsupportedVaultVersion 2 :=
  runVault_unsupported_version aeadEcho scryptZero utf8Stub parseDbStub
    ⟨2, ⟨[pwSlot1], ⟨"000000000000000000000000", "00"⟩⟩, "AA"⟩ "pw"
    (by decide)

/-- C7 counterexample: a Password-type slot without `salt`/`n`/`r`/`p` is
accepted by the schema's parser (the fields are `Option`s), and the absence
surfaces as an `unwrap` panic inside key derivation — not as a parse-time
rejection. -/
theorem password_slot_missing_salt_accepted :
    Slot.fromJson slotJsonNoSalt = some slotNoSalt ∧
    derive_key scryptZero (utf8Bytes "pw") slotNoSalt =
      .panic "Option::unwrap on None" :=
  ⟨rfl, rfl⟩

/-- C7 (amended): the absence of the KDF fields in a Password-type slot is
not a parse-time schema violation — parsing accepts such a slot (every
object with the required fields and no `salt`/`n`/`r`/`p` keys parses to a
slot with those fields `none`) — and key derivation on any slot without a
salt panics at run time via `unwrap`. -/
theorem missing_salt_defers_to_derive_key :
    (∀ (sc : ScryptFn) (pw : Bytes) (slot : Slot), slot.salt = none →
      derive_key sc pw slot = .panic "Option::unwrap on None") ∧
    ∀ u k nonce tag,
      Slot.fromJson (.obj [("type", .num 1), ("uuid", .str u), ("key", .str k),
        ("key_params", .obj [("nonce", .str nonce), ("tag", .str tag)])]) =
      some ⟨.password, u, k, ⟨nonce, tag⟩, none, none, none, none, none, none⟩ := by
  constructor
  · intro sc pw slot h
    unfold derive_key
    rw [h]
  · intro u k nonce tag
    rfl

/-- Witness for the amended C7 theorem at the concrete saltless slot. -/
theorem missing_salt_defers_to_derive_key_witness :
    derive_key scryptZero (utf8Bytes "x") slotNoSalt =
      .panic "Option::unwrap on None" :=
  missing_salt_defers_to_derive_key.1 scryptZero (utf8Bytes "x") slotNoSalt rfl

/-- C8 counterexample: an entry of non-TOTP type ("hotp") is not excluded
from code generation — selecting it produces a passcode. -/
theorem non_totp_entry_generates_code :
    hotpEntry.type = "hotp" ∧
    show_entry ⟨2, [hotpEntry]⟩ (some 0) 59 = .ok "263420" 1 :=
  ⟨rfl, by decide⟩

/-- C8 (amended): passcode generation is applied to the selected entry
regardless of its type — the selection branch's outcome depends only on the
entries' `info` fields, so entries of unsupported types are retained and
processed like TOTP entries, never skipped and never an error. -/
theorem show_entry_ignores_type (ver ver2 : Nat) (es es2 : List Entry)
    (idx : Option Nat) (now : Nat)
    (h : es.map Entry.info = es2.map Entry.info) :
    show_entry ⟨ver, es⟩ idx now = show_entry ⟨ver2, es2⟩ idx now := by
  cases idx with
  | none => rfl
  | some i =>
    have h2 : (es.map Entry.info).get? i = (es2.map Entry.info).get? i := by
      rw [h]
    rw [List.get?_map, List.get?_map] at h2
    show (match es.get? i with
      | none => SelectResult.panic "Option::unwrap on None"
      | some e =>
        match generate_totp e.info.secret now with
        | none => SelectResult.err
        | some code =>
          match get_time_left now e.info.period with
          | none => SelectResult.panic "Remainder by zero"
          | some t => SelectResult.ok code t) =
      (match es2.get? i with
      | none => SelectResult.panic "Option::unwrap on None"
      | some e =>
        match generate_totp e.info.secret now with
        | none => SelectResult.err
        | some code =>
          match get_time_left now e.info.period with
          | none => SelectResult.panic "Remainder by zero"
          | some t => SelectResult.ok code t)
    cases he : es.get? i with
    | none =>
      cases he2 : es2.get? i with
      | none => rfl
      | some e2 => rw [he, he2] at h2; simp at h2
    | some e1 =>
      cases he2 : es2.get? i with
      | none => rw [he, he2] at h2; simp at h2
      | some e2 =>
        rw [he, he2] at h2
        simp only [Option.map_some', Option.some.injEq] at h2
        simp only [h2]

/-- Witness for the amended C8 theorem: the hotp-typed and totp-typed
variants of the same entry produce the same outcome. -/
theorem show_entry_ignores_type_witness :
    show_entry ⟨2, [hotpEntry]⟩ (some 0) 59 =
      show_entry ⟨3, [totpEntry]⟩ (some 0) 59 :=
  show_entry_ignores_type 2 3 [hotpEntry] [totpEntry] (some 0) 59 (by decide)

/-- C9 counterexample: at clock value 2^31 (January 2038) and period 30,
the `as i32` truncation makes the clock negative and the program returns
38, which exceeds the period and differs from `period - (now mod period)`
= 22 — the claimed identity and bounds fail for this time ≥ 0. -/
theorem get_time_left_clock_overflow :
    get_time_left 2147483648 30 = some 38 ∧
    ¬ ((38 : Int) ≤ 30) ∧ (38 : Int) ≠ 30 - 2147483648 % 30 :=
  ⟨by decide, by decide, by decide⟩

/-- C9 (amended): for every period with 0 < period < 2^31 and every time
now with 0 ≤ now < 2^31 (clock values on which the i32 truncation is the
identity, i.e. before January 2038), the seconds-remaining value is
`period - (now mod period)` and lies in the inclusive range [1, period]. -/
theorem get_time_left_bounds (now : Nat) (period : Int)
    (hnow : now < 2147483648) (hp : 0 < period) (hp2 : period < 2147483648) :
    get_time_left now period = some (period - Int.tmod (now : Int) period) ∧
    ∀ t, get_time_left now period = some t → 1 ≤ t ∧ t ≤ period := by
  have hcast : i32cast now = (now : Int) := by
    unfold i32cast
    rw [Nat.mod_eq_of_lt (by omega)]
    rw [if_pos hnow]
  obtain ⟨pn, rfl⟩ := Int.eq_ofNat_of_zero_le hp.le
  have hpn : 0 < pn := by exact_mod_cast hp
  have hpn2 : pn < 2147483648 := by exact_mod_cast hp2
  have hmod : Int.tmod (↑now) (↑pn) = ((now % pn : Nat) : Int) := rfl
  have hlt : now % pn < pn := Nat.mod_lt now hpn
  have hcond : ¬((↑pn : Int) = 0 ∨ (i32cast now = -2147483648 ∧ (↑pn : Int) = -1)) := by
    rw [hcast]
    intro hcontra
    rcases hcontra with h | ⟨h, h2⟩
    · omega
    · omega
  have hval : get_time_left now (↑pn) = some ((↑pn : Int) - ↑(now % pn)) := by
    unfold get_time_left
    rw [if_neg hcond]
    rw [hcast, hmod, wrap32_eq ((↑pn : Int) - ↑(now % pn)) (by push_cast; omega)
      (by push_cast; omega)]
  constructor
  · rw [hval, hmod]
  · intro t ht
    rw [hval] at ht
    injection ht with ht
    rw [← ht]
    constructor
    · omega
    · omega

/-- Witness for the amended C9 theorem at clock 59, period 30. -/
theorem get_time_left_bounds_witness :
    get_time_left 59 30 = some (30 - Int.tmod (59 : Int) 30) ∧
    ∀ t, get_time_left 59 30 = some t → 1 ≤ t ∧ t ≤ 30 :=
  get_time_left_bounds 59 30 (by decide) (by decide) (by decide)

/-- C10 counterexample: the precondition period ≠ 0 does not make the
remaining-time computation total — at clock value 2^31 (truncated to
i32::MIN) and period -1, Rust's `%` aborts on signed overflow although the
period is nonzero. -/
theorem get_time_left_nonzero_period_abort :
    ((-1 : Int) ≠ 0) ∧ get_time_left 2147483648 (-1) = none :=
  ⟨by decide, by decide⟩

/-- C10 (amended): the remainder `seconds % period` is computed with no
guard on period, so for period 0 the operation has no result (remainder by
zero) for every clock value; a value is returned exactly outside the two
abort cases of Rust's `%` — period = 0 and the signed-overflow pair
(truncated clock = i32::MIN, period = -1) — so period ≠ 0 is a necessary
but not sufficient precondition for totality. -/
theorem get_time_left_zero_period :
    (∀ now : Nat, get_time_left now 0 = none) ∧
    ∀ (now : Nat) (period : Int), period ≠ 0 →
      ¬(i32cast now = -2147483648 ∧ period = -1) →
      (get_time_left now period).isSome := by
  constructor
  · intro now
    unfold get_time_left
    rw [if_pos (Or.inl rfl)]
  · intro now p h1 h2
    unfold get_time_left
    rw [if_neg (not_or.mpr ⟨h1, h2⟩)]
    rfl

/-- Witness for the amended C10 theorem at periods 0 and 30, clock 59. -/
theorem get_time_left_zero_period_witness :
    get_time_left 59 0 = none ∧ (get_time_left 59 30).isSome :=
  ⟨get_time_left_zero_period.1 59,
    get_time_left_zero_period.2 59 30 (by decide) (by decide)⟩

end Aegis
